import Mathlib

/-!
Verification of the fambul-tik-backend relationship writer.

The repository is an Express/PostgreSQL CRUD API over three tables:
`members`, `relationship_types` (with an optional self-referencing
`inverse_type_id`), and `relationships` (id, member_id_1,
relationship_type_id, member_id_2).  The core logic is the bidirectional
relationship-inverse maintenance in `server.js`: the POST/PUT/DELETE
`/api/relationships` handlers each open one transaction, mutate the
primary row, reconcile the derived inverse row, and COMMIT, rolling back
on any error.  A second, simpler server variant (part_000) has a POST
handler that validates `member_id_1 !== member_id_2` and performs no
inverse maintenance.

This file embeds those handlers shallowly: tables are lists of rows,
ids are natural numbers, each SQL statement of a handler becomes a pure
step on the list state, and a `failAt` parameter marks which numbered
query (if any) raises, so that the BEGIN/COMMIT/ROLLBACK discipline is
visible as: an error at any step yields the original database.
-/

namespace FambulTik

/-- A row of the `relationships` table:
`(id, member_id_1, relationship_type_id, member_id_2)`. -/
structure RelRow where
  id : Nat
  member_id_1 : Nat
  relationship_type_id : Nat
  member_id_2 : Nat
deriving DecidableEq, Repr

/-- A row of the `relationship_types` table, keeping the two columns the
writer reads: `id` and the nullable `inverse_type_id`. -/
structure TypeRow where
  id : Nat
  inverse_type_id : Option Nat
deriving DecidableEq, Repr

/-- A row of the `members` table (only the id is relevant to the claims). -/
structure MemberRow where
  id : Nat
deriving DecidableEq, Repr

/-- The persisted state: the three tables. -/
structure DB where
  members : List MemberRow
  relationship_types : List TypeRow
  relationships : List RelRow
deriving DecidableEq, Repr

/-- HTTP outcome of a handler.  `noResponse` records the path where the
handler's own error handling throws, so no status is ever sent. -/
inductive Resp where
  | created
  | ok
  | badRequest
  | notFound
  | serverError
  | noResponse
deriving DecidableEq, Repr

/-- Full outcome of one relationship-writer handler invocation: the HTTP
response, the committed database, whether a pool connection was acquired
and whether it was released back to the pool. -/
structure Outcome where
  resp : Resp
  db : DB
  acquired : Bool
  released : Bool
deriving DecidableEq, Repr

/-- `SELECT inverse_type_id FROM relationship_types WHERE id = $1`,
combined with the JS guard `rows.length > 0 && rows[0].inverse_type_id`:
`some inv` exactly when the type row exists and its inverse is non-null. -/
def lookupInverse (types : List TypeRow) (t : Nat) : Option Nat :=
  match types.find? (fun row => row.id == t) with
  | some row => row.inverse_type_id
  | none => none

/-- The WHERE clause `member_id_1 = $1 AND relationship_type_id = $2 AND
member_id_2 = $3` used for both the inverse-existence SELECT and the
inverse DELETE. -/
def matchesPattern (r : RelRow) (a t b : Nat) : Bool :=
  r.member_id_1 == a && r.relationship_type_id == t && r.member_id_2 == b

/-- `SELECT id FROM relationships WHERE member_id_1 = $1 AND
relationship_type_id = $2 AND member_id_2 = $3` tested for non-emptiness. -/
def existsRel (rels : List RelRow) (a t b : Nat) : Bool :=
  rels.any (fun r => matchesPattern r a t b)

/-- `DELETE FROM relationships WHERE member_id_1 = $1 AND
relationship_type_id = $2 AND member_id_2 = $3`. -/
def deleteMatching (rels : List RelRow) (a t b : Nat) : List RelRow :=
  rels.filter (fun r => !(matchesPattern r a t b))

/-- `DELETE FROM relationships WHERE id = $1`. -/
def deleteById (rels : List RelRow) (rid : Nat) : List RelRow :=
  rels.filter (fun r => !(r.id == rid))

/-- `SELECT ... FROM relationships WHERE id = $1` taking `rows[0]`. -/
def findById (rels : List RelRow) (rid : Nat) : Option RelRow :=
  rels.find? (fun r => r.id == rid)

/-- `INSERT INTO relationships (id, member_id_1, relationship_type_id,
member_id_2) VALUES ($1, $2, $3, $4)`. -/
def insertRel (rels : List RelRow) (r : RelRow) : List RelRow :=
  rels ++ [r]

/-- `UPDATE relationships SET member_id_1 = $1, relationship_type_id = $2,
member_id_2 = $3 WHERE id = $4`. -/
def updateById (rels : List RelRow) (rid m1 t m2 : Nat) : List RelRow :=
  rels.map (fun r =>
    if r.id == rid then
      { r with member_id_1 := m1, relationship_type_id := t, member_id_2 := m2 }
    else r)

/-!
## POST /api/relationships (server.js)

Query steps are numbered in program order; `failAt = some k` means the
k-th database call raises:
0 `pool.connect()`, 1 `BEGIN`, 2 `INSERT` primary, 3 `SELECT
inverse_type_id`, 4 `SELECT` existing inverse, 5 `INSERT` inverse,
6 `COMMIT`.  A step that the control flow never reaches cannot raise.
-/

/-- The transactional body of the create handler: `Except.ok` is the
relationships table as committed, `Except.error` is a raised query error
(the handler then issues ROLLBACK, so the table reverts). -/
def createRelTx (db : DB) (m1 t m2 pid iid : Nat) (failAt : Option Nat) :
    Except Unit (List RelRow) :=
  if failAt = some 1 ∨ failAt = some 2 then Except.error ()
  else
    let rels1 := insertRel db.relationships ⟨pid, m1, t, m2⟩
    if failAt = some 3 then Except.error ()
    else
      match lookupInverse db.relationship_types t with
      | some inv =>
        if inv ≠ t ∨ m1 ≠ m2 then
          if failAt = some 4 then Except.error ()
          else if existsRel rels1 m2 inv m1 then
            if failAt = some 6 then Except.error () else Except.ok rels1
          else if failAt = some 5 ∨ failAt = some 6 then Except.error ()
          else Except.ok (insertRel rels1 ⟨iid, m2, inv, m1⟩)
        else if failAt = some 6 then Except.error () else Except.ok rels1
      | none =>
        if failAt = some 6 then Except.error () else Except.ok rels1

/-- `app.post("/api/relationships")` of server.js.  `pid` and `iid` are
the two `uuidv4()` values generated for the primary and inverse rows.
If `pool.connect()` itself raises, `client` is undefined and the catch
block's unguarded `client.query("ROLLBACK")` throws a TypeError, so no
response is ever sent and nothing is released (there is nothing to
release).  On any later error the catch rolls back and sends 500, and
the finally block releases the client. -/
def createRelationship (db : DB) (m1 t m2 pid iid : Nat) (failAt : Option Nat) :
    Outcome :=
  if failAt = some 0 then ⟨Resp.noResponse, db, false, false⟩
  else
    match createRelTx db m1 t m2 pid iid failAt with
    | Except.ok rels => ⟨Resp.created, { db with relationships := rels }, true, true⟩
    | Except.error _ => ⟨Resp.serverError, db, true, true⟩

/-!
## PUT /api/relationships/:id (server.js)

Steps: 0 `pool.connect()`, 1 `BEGIN`, 2 `SELECT` old row, 3 `SELECT` old
inverse type, 4 `DELETE` old inverse (conditional), 5 `UPDATE` primary,
6 `SELECT` new inverse type, 7 `SELECT` existing new inverse
(conditional), 8 `INSERT` new inverse (conditional), 9 `COMMIT`.
-/

/-- Steps 5-9 of the update transaction, starting from the table state
`rels1` left by the old-inverse deletion phase.  The UPDATE's
`RETURNING *` row count decides the second NotFound branch. -/
def updateRelTxTail (types : List TypeRow) (rels1 : List RelRow)
    (rid m1 t m2 iid : Nat) (failAt : Option Nat) : Except Resp (List RelRow) :=
  if failAt = some 5 then Except.error Resp.serverError
  else if !(rels1.any (fun r => r.id == rid)) then Except.error Resp.notFound
  else
    let rels2 := updateById rels1 rid m1 t m2
    if failAt = some 6 then Except.error Resp.serverError
    else
      match lookupInverse types t with
      | some inv =>
        if inv ≠ t ∨ m1 ≠ m2 then
          if failAt = some 7 then Except.error Resp.serverError
          else if existsRel rels2 m2 inv m1 then
            if failAt = some 9 then Except.error Resp.serverError
            else Except.ok rels2
          else if failAt = some 8 ∨ failAt = some 9 then Except.error Resp.serverError
          else Except.ok (insertRel rels2 ⟨iid, m2, inv, m1⟩)
        else if failAt = some 9 then Except.error Resp.serverError
        else Except.ok rels2
      | none =>
        if failAt = some 9 then Except.error Resp.serverError
        else Except.ok rels2

/-- The transactional body of the update handler: read the old row (404
if absent), delete the old inverse unless the self-loop guard applies,
then hand over to the tail. -/
def updateRelTx (db : DB) (rid m1 t m2 iid : Nat) (failAt : Option Nat) :
    Except Resp (List RelRow) :=
  if failAt = some 1 ∨ failAt = some 2 then Except.error Resp.serverError
  else
    match findById db.relationships rid with
    | none => Except.error Resp.notFound
    | some oldRel =>
      if failAt = some 3 then Except.error Resp.serverError
      else
        match lookupInverse db.relationship_types oldRel.relationship_type_id with
        | some oinv =>
          if ¬(oinv = oldRel.relationship_type_id ∧
               oldRel.member_id_1 = oldRel.member_id_2) then
            if failAt = some 4 then Except.error Resp.serverError
            else updateRelTxTail db.relationship_types
              (deleteMatching db.relationships oldRel.member_id_2 oinv
                oldRel.member_id_1) rid m1 t m2 iid failAt
          else updateRelTxTail db.relationship_types db.relationships
            rid m1 t m2 iid failAt
        | none => updateRelTxTail db.relationship_types db.relationships
            rid m1 t m2 iid failAt

/-- `app.put("/api/relationships/:id")` of server.js.  Its catch block,
unlike the create handler's, guards the rollback with `if (client)`, so
even a `pool.connect()` failure still answers 500. -/
def updateRelationship (db : DB) (rid m1 t m2 iid : Nat) (failAt : Option Nat) :
    Outcome :=
  if failAt = some 0 then ⟨Resp.serverError, db, false, false⟩
  else
    match updateRelTx db rid m1 t m2 iid failAt with
    | Except.ok rels => ⟨Resp.ok, { db with relationships := rels }, true, true⟩
    | Except.error r => ⟨r, db, true, true⟩

/-!
## DELETE /api/relationships/:id (server.js)

Steps: 0 `pool.connect()`, 1 `BEGIN`, 2 `SELECT` row, 3 `DELETE` primary,
4 `SELECT` inverse type, 5 `DELETE` inverse (conditional), 6 `COMMIT`.
-/

/-- The transactional body of the delete handler. -/
def deleteRelTx (db : DB) (rid : Nat) (failAt : Option Nat) :
    Except Resp (List RelRow) :=
  if failAt = some 1 ∨ failAt = some 2 then Except.error Resp.serverError
  else
    match findById db.relationships rid with
    | none => Except.error Resp.notFound
    | some rel =>
      if failAt = some 3 then Except.error Resp.serverError
      else
        let rels1 := deleteById db.relationships rid
        if failAt = some 4 then Except.error Resp.serverError
        else
          match lookupInverse db.relationship_types rel.relationship_type_id with
          | some inv =>
            if ¬(inv = rel.relationship_type_id ∧
                 rel.member_id_1 = rel.member_id_2) then
              if failAt = some 5 ∨ failAt = some 6 then
                Except.error Resp.serverError
              else Except.ok (deleteMatching rels1 rel.member_id_2 inv
                rel.member_id_1)
            else if failAt = some 6 then Except.error Resp.serverError
            else Except.ok rels1
          | none =>
            if failAt = some 6 then Except.error Resp.serverError
            else Except.ok rels1

/-- `app.delete("/api/relationships/:id")` of server.js; its catch guards
the rollback with `if (client)` like the update handler. -/
def deleteRelationship (db : DB) (rid : Nat) (failAt : Option Nat) : Outcome :=
  if failAt = some 0 then ⟨Resp.serverError, db, false, false⟩
  else
    match deleteRelTx db rid failAt with
    | Except.ok rels => ⟨Resp.ok, { db with relationships := rels }, true, true⟩
    | Except.error r => ⟨r, db, true, true⟩

/-!
## DELETE /api/members/:id (server.js) and POST /api/relationships (part_000)
-/

/-- Modelled from the spec: the `relationships` table's two member
columns carry foreign keys to `members`, so PostgreSQL raises error code
23503 when a referenced member row is deleted.  The schema itself is not
in the source tree; this predicate states when that signal fires, per
the spec's referential invariant. -/
def memberReferenced (rels : List RelRow) (mid : Nat) : Bool :=
  rels.any (fun r => r.member_id_1 == mid || r.member_id_2 == mid)

/-- `app.delete("/api/members/:id")` of server.js: a single DELETE with
`RETURNING *`; a 23503 foreign-key violation is answered with 400, zero
returned rows with 404, otherwise 200 and the member row is gone. -/
def deleteMember (db : DB) (mid : Nat) : Resp × DB :=
  if db.members.any (fun m => m.id == mid) then
    if memberReferenced db.relationships mid then (Resp.badRequest, db)
    else (Resp.ok, { db with members := db.members.filter (fun m => !(m.id == mid)) })
  else (Resp.notFound, db)

/-- `app.post("/api/relationships")` of the simpler variant (part_000):
reject `member_id_1 === member_id_2` with 400 before any write, else a
single INSERT with 201 and no inverse maintenance. -/
def simpleCreateRelationship (db : DB) (m1 m2 t rid : Nat) : Resp × DB :=
  if m1 = m2 then (Resp.badRequest, db)
  else (Resp.created,
    { db with relationships := insertRel db.relationships ⟨rid, m1, t, m2⟩ })

/-- The create-inverse rule of spec §4.2 steps 4a-4c, as claim C3 words
it: skip when the inverse type equals the relationship type AND the
subject equals the object; otherwise insert the row (object, inverse
type, subject) unless such a row already exists. -/
def applyInverseRule (types : List TypeRow) (rels : List RelRow)
    (m1 t m2 iid : Nat) : List RelRow :=
  match lookupInverse types t with
  | some inv =>
    if inv = t ∧ m1 = m2 then rels
    else if existsRel rels m2 inv m1 then rels
    else insertRel rels ⟨iid, m2, inv, m1⟩
  | none => rels

/-- The update algorithm exactly as claim C3 states it: delete the old
inverse row matching (subject = old.object, type = old inverse type,
object = old.subject) unless the old type is self-inverse and the old
subject equals the old object; then set the primary row's fields to the
new values; then create the new inverse under the same degenerate-skip
and existence-check rules as create. -/
def updateSpecResult (types : List TypeRow) (rels : List RelRow) (oldRel : RelRow)
    (rid m1 t m2 iid : Nat) : List RelRow :=
  let afterDelete :=
    match lookupInverse types oldRel.relationship_type_id with
    | some oinv =>
      if oinv = oldRel.relationship_type_id ∧ oldRel.member_id_1 = oldRel.member_id_2
      then rels
      else deleteMatching rels oldRel.member_id_2 oinv oldRel.member_id_1
    | none => rels
  applyInverseRule types (updateById afterDelete rid m1 t m2) m1 t m2 iid

/-!
## Helper lemmas about the row-level operations
-/

lemma findById_mem {rels : List RelRow} {rid : Nat} {r : RelRow}
    (h : findById rels rid = some r) : r ∈ rels ∧ r.id = rid := by
  refine ⟨List.mem_of_find?_eq_some h, ?_⟩
  have h2 := List.find?_some h
  simpa using h2

lemma findById_none_not_mem {rels : List RelRow} {rid : Nat}
    (h : findById rels rid = none) {r : RelRow} (hm : r ∈ rels) : r.id ≠ rid := by
  have h2 := List.find?_eq_none.mp h r hm
  simpa using h2

lemma any_id_of_mem {rels : List RelRow} {rid : Nat} {r : RelRow}
    (hm : r ∈ rels) (hid : r.id = rid) :
    rels.any (fun x => x.id == rid) = true := by
  rw [List.any_eq_true]
  exact ⟨r, hm, by simp [hid]⟩

lemma mem_deleteMatching {rels : List RelRow} {a t b : Nat} {r : RelRow}
    (hm : r ∈ rels) (hnp : matchesPattern r a t b = false) :
    r ∈ deleteMatching rels a t b := by
  rw [deleteMatching, List.mem_filter]
  exact ⟨hm, by simp [hnp]⟩

lemma existsRel_deleteMatching (rels : List RelRow) (a t b : Nat) :
    existsRel (deleteMatching rels a t b) a t b = false := by
  rw [existsRel, List.any_eq_false]
  intro r hr
  rw [deleteMatching, List.mem_filter] at hr
  simpa using hr.2

lemma findById_deleteById (rels : List RelRow) (rid : Nat) :
    findById (deleteById rels rid) rid = none := by
  rw [findById, List.find?_eq_none]
  intro r hr
  rw [deleteById, List.mem_filter] at hr
  simpa using hr.2

lemma findById_deleteMatching_none {rels : List RelRow} {rid : Nat} (a t b : Nat)
    (h : findById rels rid = none) :
    findById (deleteMatching rels a t b) rid = none := by
  rw [findById, List.find?_eq_none] at h ⊢
  intro r hr
  exact h r (List.mem_of_mem_filter hr)

lemma oldRel_not_matches {r : RelRow} {oinv : Nat}
    (h : ¬(oinv = r.relationship_type_id ∧ r.member_id_1 = r.member_id_2)) :
    matchesPattern r r.member_id_2 oinv r.member_id_1 = false := by
  rw [matchesPattern]
  by_cases h1 : r.member_id_1 = r.member_id_2
  · by_cases h2 : r.relationship_type_id = oinv
    · exact absurd ⟨h2.symm, h1⟩ h
    · simp [h2]
  · simp [h1]

lemma createRelationship_types (db : DB) (m1 t m2 pid iid : Nat) (f : Option Nat) :
    (createRelationship db m1 t m2 pid iid f).db.relationship_types =
      db.relationship_types := by
  rw [createRelationship]
  split
  · rfl
  · split <;> rfl

/-!
## Claim theorems
-/

/-- Claim C1, counterexample: in the canonical server.js create handler a
POST whose body has `member_id_1 = member_id_2` (here member 1 related to
itself with type 0, which has no row in `relationship_types`) is NOT
rejected with 400: it answers 201 and commits the primary row. -/
theorem C1_counterexample :
    (createRelationship ⟨[], [], []⟩ 1 0 1 10 11 none).resp ≠ Resp.badRequest ∧
    (createRelationship ⟨[], [], []⟩ 1 0 1 10 11 none).resp = Resp.created ∧
    (createRelationship ⟨[], [], []⟩ 1 0 1 10 11 none).db.relationships =
      [⟨10, 1, 0, 1⟩] := by decide

/-- Claim C1, amended: only the simpler server variant (part_000) rejects
a POST with `member_id_1 = member_id_2`: there it answers 400 and the
database is unchanged (the check precedes the INSERT).  The canonical
server.js handler performs no such validation. -/
theorem C1_amended_simple_reject (db : DB) (m1 m2 t rid : Nat) (h : m1 = m2) :
    simpleCreateRelationship db m1 m2 t rid = (Resp.badRequest, db) := by
  simp [simpleCreateRelationship, h]

/-- Witness for C1_amended_simple_reject at member 1 related to itself. -/
theorem C1_amended_simple_reject_witness :
    (1 : Nat) = 1 ∧
    simpleCreateRelationship ⟨[], [], []⟩ 1 1 0 10 = (Resp.badRequest, ⟨[], [], []⟩) :=
  ⟨rfl, C1_amended_simple_reject ⟨[], [], []⟩ 1 1 0 10 rfl⟩

/-- Claim C8: in the create handler, when acquiring the pool connection
itself fails (step 0), `client` is undefined, so the catch block's
unguarded `client.query("ROLLBACK")` throws and the 500 response is never
sent — contradicting the claim that every failure is reported to the
caller as a response.  Nothing was acquired, so nothing is released. -/
theorem C8_create_connect_failure_no_response :
    createRelationship ⟨[], [], []⟩ 1 0 2 10 11 (some 0) =
      ⟨Resp.noResponse, ⟨[], [], []⟩, false, false⟩ := by decide

/-- Claim C9: deleting a member that exists and is referenced by at least
one relationship row raises the 23503 foreign-key signal, which the
handler answers with 400; the whole database (member row and all
relationship rows) is unchanged. -/
theorem C9_referential_protection (db : DB) (mid : Nat)
    (hmem : db.members.any (fun m => m.id == mid) = true)
    (href : memberReferenced db.relationships mid = true) :
    deleteMember db mid = (Resp.badRequest, db) := by
  simp [deleteMember, hmem, href]

/-- Witness for C9_referential_protection: member 1 is referenced by the
relationship row (1, 0, 2), so its delete is rejected with 400. -/
theorem C9_referential_protection_witness :
    ([⟨1⟩, ⟨2⟩] : List MemberRow).any (fun m => m.id == 1) = true ∧
    memberReferenced [⟨5, 1, 0, 2⟩] 1 = true ∧
    deleteMember ⟨[⟨1⟩, ⟨2⟩], [], [⟨5, 1, 0, 2⟩]⟩ 1 =
      (Resp.badRequest, ⟨[⟨1⟩, ⟨2⟩], [], [⟨5, 1, 0, 2⟩]⟩) :=
  ⟨by decide, by decide,
    C9_referential_protection ⟨[⟨1⟩, ⟨2⟩], [], [⟨5, 1, 0, 2⟩]⟩ 1 (by decide) (by decide)⟩

/-- Claim C4, counterexample: with the self-inverse type 0 and members 1
and 2, creating (1, 0, 2) and then (2, 0, 1) leaves THREE rows, not two:
the second create inserts its primary row unconditionally; only the
inverse insert is guarded by the existence check. -/
theorem C4_counterexample :
    ((createRelationship (createRelationship ⟨[], [⟨0, some 0⟩], []⟩ 1 0 2 10 11 none).db
        2 0 1 12 13 none).db.relationships).length ≠ 2 ∧
    ((createRelationship (createRelationship ⟨[], [⟨0, some 0⟩], []⟩ 1 0 2 10 11 none).db
        2 0 1 12 13 none).db.relationships) =
      [⟨10, 1, 0, 2⟩, ⟨11, 2, 0, 1⟩, ⟨12, 2, 0, 1⟩] := by decide

/-- Claim C4, amended: for a self-inverse type T and distinct members A
and B, creating (A, T, B) and then (B, T, A) from an empty relationships
table yields exactly THREE rows.  The first create inserts its primary
row and, the inverse (B, T, A) being absent, also the inverse row; the
second create inserts its primary row (B, T, A) unconditionally — a
duplicate — and then the existence check finds (A, T, B) already present
and skips the inverse insert, so no row is ever added AS AN INVERSE when
the candidate already exists. -/
theorem C4_amended_three_rows (db : DB) (A B T i1 i2 i3 i4 : Nat)
    (hT : lookupInverse db.relationship_types T = some T)
    (hAB : A ≠ B) (h0 : db.relationships = []) :
    (createRelationship db A T B i1 i2 none).db.relationships =
      [⟨i1, A, T, B⟩, ⟨i2, B, T, A⟩] ∧
    (createRelationship (createRelationship db A T B i1 i2 none).db
        B T A i3 i4 none).db.relationships =
      [⟨i1, A, T, B⟩, ⟨i2, B, T, A⟩, ⟨i3, B, T, A⟩] := by
  have hBA : B ≠ A := Ne.symm hAB
  have h1 : (createRelationship db A T B i1 i2 none).db.relationships =
      [⟨i1, A, T, B⟩, ⟨i2, B, T, A⟩] := by
    simp [createRelationship, createRelTx, hT, h0, insertRel, existsRel,
      matchesPattern, hAB, hBA]
  have h2 : (createRelationship db A T B i1 i2 none).db.relationship_types =
      db.relationship_types := createRelationship_types db A T B i1 i2 none
  refine ⟨h1, ?_⟩
  generalize hgen : (createRelationship db A T B i1 i2 none).db = db1 at h1 h2 ⊢
  simp [createRelationship, createRelTx, h2, hT, h1, insertRel, existsRel,
    matchesPattern, hAB, hBA]

/-- Witness for C4_amended_three_rows with type 0 self-inverse and
members 1 and 2. -/
theorem C4_amended_three_rows_witness :
    lookupInverse [⟨0, some 0⟩] 0 = some 0 ∧ (1 : Nat) ≠ 2 ∧
    (createRelationship (createRelationship ⟨[], [⟨0, some 0⟩], []⟩ 1 0 2 10 11 none).db
        2 0 1 12 13 none).db.relationships =
      [⟨10, 1, 0, 2⟩, ⟨11, 2, 0, 1⟩, ⟨12, 2, 0, 1⟩] :=
  ⟨by decide, by decide,
    (C4_amended_three_rows ⟨[], [⟨0, some 0⟩], []⟩ 1 2 0 10 11 12 13
      (by decide) (by decide) rfl).2⟩

/-- Claim C5: given a declared inverse type, the create handler takes the
degenerate skip branch exactly when the inverse type equals the
relationship type AND the subject equals the object.  In that case the
committed table is the original plus the primary row only (exactly one
row produced); in every other case (with the candidate inverse absent)
the inverse row is inserted as well. -/
theorem C5_degenerate_skip (db : DB) (m1 t m2 pid iid inv : Nat)
    (hinv : lookupInverse db.relationship_types t = some inv) :
    ((inv = t ∧ m1 = m2) →
      (createRelationship db m1 t m2 pid iid none).db.relationships =
        insertRel db.relationships ⟨pid, m1, t, m2⟩) ∧
    (¬(inv = t ∧ m1 = m2) →
      existsRel (insertRel db.relationships ⟨pid, m1, t, m2⟩) m2 inv m1 = false →
      (createRelationship db m1 t m2 pid iid none).db.relationships =
        insertRel (insertRel db.relationships ⟨pid, m1, t, m2⟩)
          ⟨iid, m2, inv, m1⟩) := by
  constructor
  · rintro ⟨he, hm⟩
    subst he; subst hm
    simp [createRelationship, createRelTx, hinv]
  · intro hnd hex
    have hor : inv ≠ t ∨ m1 ≠ m2 := not_and_or.mp hnd
    rcases hor with h | h <;>
      simp [createRelationship, createRelTx, hinv, hex, h]

/-- Witness for C5_degenerate_skip with self-inverse type 0 and member 1
related to itself: exactly one row is committed. -/
theorem C5_degenerate_skip_witness :
    lookupInverse [⟨0, some 0⟩] 0 = some 0 ∧
    (createRelationship ⟨[], [⟨0, some 0⟩], []⟩ 1 0 1 10 11 none).db.relationships =
      insertRel [] ⟨10, 1, 0, 1⟩ :=
  ⟨by decide,
    (C5_degenerate_skip ⟨[], [⟨0, some 0⟩], []⟩ 1 0 1 10 11 0 (by decide)).1
      ⟨rfl, rfl⟩⟩

lemma createRelTx_ok {db : DB} {m1 t m2 pid iid inv : Nat} {failAt : Option Nat}
    {rels : List RelRow}
    (hinv : lookupInverse db.relationship_types t = some inv)
    (hE : createRelTx db m1 t m2 pid iid failAt = Except.ok rels) :
    (⟨pid, m1, t, m2⟩ : RelRow) ∈ rels ∧
    (¬(inv = t ∧ m1 = m2) → existsRel rels m2 inv m1 = true) := by
  simp only [createRelTx, hinv] at hE
  split at hE
  · cases hE
  · split at hE
    · cases hE
    · split at hE
      · split at hE
        · cases hE
        · split at hE
          · split at hE
            · cases hE
            · injection hE with h; subst h
              refine ⟨by simp [insertRel], fun _ => ?_⟩
              assumption
          · split at hE
            · cases hE
            · injection hE with h; subst h
              refine ⟨by simp [insertRel], fun _ => ?_⟩
              simp [existsRel, insertRel, matchesPattern]
      · split at hE
        · cases hE
        · injection hE with h; subst h
          rename_i hg hf
          refine ⟨by simp [insertRel], fun hnd => ?_⟩
          rcases not_or.mp hg with ⟨h1, h2⟩
          exact absurd ⟨not_not.mp h1, not_not.mp h2⟩ hnd

/-- Claim C2: for a create whose type declares inverse `inv` with the
degenerate case excluded, whatever step (if any) fails, afterwards either
the primary row is committed together with a matching inverse row, or the
transaction rolled back and the database is exactly the original, in
which case the (fresh) primary row is absent — the primary is never
persisted without its inverse. -/
theorem C2_create_atomicity (db : DB) (m1 t m2 pid iid inv : Nat) (failAt : Option Nat)
    (hinv : lookupInverse db.relationship_types t = some inv)
    (hnd : ¬(inv = t ∧ m1 = m2))
    (hfresh : findById db.relationships pid = none) :
    ((⟨pid, m1, t, m2⟩ : RelRow) ∈
        (createRelationship db m1 t m2 pid iid failAt).db.relationships ∧
      existsRel (createRelationship db m1 t m2 pid iid failAt).db.relationships
        m2 inv m1 = true) ∨
    ((createRelationship db m1 t m2 pid iid failAt).db = db ∧
      (⟨pid, m1, t, m2⟩ : RelRow) ∉
        (createRelationship db m1 t m2 pid iid failAt).db.relationships) := by
  have hnm : (⟨pid, m1, t, m2⟩ : RelRow) ∉ db.relationships := by
    intro hm
    exact findById_none_not_mem hfresh hm rfl
  rw [createRelationship]
  split
  · right; exact ⟨rfl, hnm⟩
  · rcases hE : createRelTx db m1 t m2 pid iid failAt with e | rels
    · simp only [hE]
      right; exact ⟨by trivial, hnm⟩
    · simp only [hE]
      obtain ⟨h1, h2⟩ := createRelTx_ok hinv hE
      left; exact ⟨h1, h2 hnd⟩

/-- Witness for C2_create_atomicity: creating (1, 0, 2) where type 0 has
inverse 1, with a failure injected at the COMMIT step, leaves the
database unchanged. -/
theorem C2_create_atomicity_witness :
    lookupInverse [⟨0, some 1⟩] 0 = some 1 ∧ ¬((1 : Nat) = 0 ∧ (1 : Nat) = 2) ∧
    findById ([] : List RelRow) 10 = none ∧
    (((⟨10, 1, 0, 2⟩ : RelRow) ∈
        (createRelationship ⟨[], [⟨0, some 1⟩], []⟩ 1 0 2 10 11 (some 6)).db.relationships ∧
      existsRel (createRelationship ⟨[], [⟨0, some 1⟩], []⟩ 1 0 2 10 11
          (some 6)).db.relationships 2 1 1 = true) ∨
    ((createRelationship ⟨[], [⟨0, some 1⟩], []⟩ 1 0 2 10 11 (some 6)).db =
        ⟨[], [⟨0, some 1⟩], []⟩ ∧
      (⟨10, 1, 0, 2⟩ : RelRow) ∉
        (createRelationship ⟨[], [⟨0, some 1⟩], []⟩ 1 0 2 10 11
          (some 6)).db.relationships)) :=
  ⟨by decide, by decide, by decide,
    C2_create_atomicity ⟨[], [⟨0, some 1⟩], []⟩ 1 0 2 10 11 1 (some 6)
      (by decide) (by decide) (by decide)⟩

lemma updateRelTxTail_none {types : List TypeRow} {rels1 : List RelRow}
    {rid m1 t m2 iid : Nat}
    (hany : rels1.any (fun r => r.id == rid) = true) :
    updateRelTxTail types rels1 rid m1 t m2 iid none =
      Except.ok (applyInverseRule types (updateById rels1 rid m1 t m2) m1 t m2 iid) := by
  rw [updateRelTxTail, applyInverseRule]
  simp only [hany, Bool.not_true]
  cases hL : lookupInverse types t with
  | none => simp
  | some inv =>
    by_cases hd : inv = t ∧ m1 = m2
    · have hg : ¬(inv ≠ t ∨ m1 ≠ m2) := by
        rcases hd with ⟨h1, h2⟩
        simp [h1, h2]
      simp [hg, hd]
    · have hg : inv ≠ t ∨ m1 ≠ m2 := not_and_or.mp hd
      by_cases he : existsRel (updateById rels1 rid m1 t m2) m2 inv m1 = true
      · simp [hg, hd, he]
      · simp [hg, hd, he]

lemma updateRelTx_none {db : DB} {rid m1 t m2 iid : Nat} {oldRel : RelRow}
    (hfind : findById db.relationships rid = some oldRel) :
    updateRelTx db rid m1 t m2 iid none =
      Except.ok (updateSpecResult db.relationship_types db.relationships oldRel
        rid m1 t m2 iid) := by
  obtain ⟨hmem, hid⟩ := findById_mem hfind
  rw [updateRelTx, updateSpecResult]
  simp only [hfind]
  cases hO : lookupInverse db.relationship_types oldRel.relationship_type_id with
  | none =>
    simp only [hO]
    rw [updateRelTxTail_none (any_id_of_mem hmem hid)]
    simp
  | some oinv =>
    by_cases hd : oinv = oldRel.relationship_type_id ∧
        oldRel.member_id_1 = oldRel.member_id_2
    · simp only [hO, hd, not_true]
      rw [updateRelTxTail_none (any_id_of_mem hmem hid)]
      simp [hd]
    · have hsurv : oldRel ∈ deleteMatching db.relationships oldRel.member_id_2 oinv
          oldRel.member_id_1 :=
        mem_deleteMatching hmem (oldRel_not_matches hd)
      simp only [hO, hd, not_false_iff]
      rw [updateRelTxTail_none (any_id_of_mem hsurv hid)]
      simp [hd]

/-- Claim C3: when the target row exists and no query fails, the update
handler answers 200 and the committed table equals the specification's
three-phase reconciliation (delete old inverse unless degenerate, set the
primary row's fields to the new values, create the new inverse under the
create rules). -/
theorem C3_update_reconciliation (db : DB) (rid m1 t m2 iid : Nat) (oldRel : RelRow)
    (hfind : findById db.relationships rid = some oldRel) :
    updateRelationship db rid m1 t m2 iid none =
      ⟨Resp.ok,
        { db with relationships :=
            (updateSpecResult db.relationship_types db.relationships oldRel
              rid m1 t m2 iid) },
        true, true⟩ := by
  rw [updateRelationship]
  simp [updateRelTx_none hfind]

/-- Witness for C3_update_reconciliation, the spec's P4 scenario: row 5 =
(1, TypeX = 0, 2) with inverse row 6 = (2, InvX = 1, 1); type 2 has
inverse 3; updating row 5 to (1, 2, 3) deletes the old inverse, rewrites
row 5 and creates the new inverse (3, 3, 1). -/
theorem C3_update_reconciliation_witness :
    findById [⟨5, 1, 0, 2⟩, ⟨6, 2, 1, 1⟩] 5 = some ⟨5, 1, 0, 2⟩ ∧
    updateRelationship ⟨[], [⟨0, some 1⟩, ⟨1, some 0⟩, ⟨2, some 3⟩], [⟨5, 1, 0, 2⟩, ⟨6, 2, 1, 1⟩]⟩
        5 1 2 3 7 none =
      ⟨Resp.ok,
        ⟨[], [⟨0, some 1⟩, ⟨1, some 0⟩, ⟨2, some 3⟩], [⟨5, 1, 2, 3⟩, ⟨7, 3, 3, 1⟩]⟩,
        true, true⟩ := by
  refine ⟨by decide, ?_⟩
  have h := C3_update_reconciliation
    ⟨[], [⟨0, some 1⟩, ⟨1, some 0⟩, ⟨2, some 3⟩], [⟨5, 1, 0, 2⟩, ⟨6, 2, 1, 1⟩]⟩
    5 1 2 3 7 ⟨5, 1, 0, 2⟩ (by decide)
  rw [h]
  decide

lemma updateRelTxTail_error {types : List TypeRow} {rels1 : List RelRow}
    {rid m1 t m2 iid : Nat} {failAt : Option Nat} {e : Resp}
    (hany : rels1.any (fun r => r.id == rid) = true)
    (hE : updateRelTxTail types rels1 rid m1 t m2 iid failAt = Except.error e) :
    e = Resp.serverError := by
  simp only [updateRelTxTail, hany, Bool.not_true] at hE
  repeat' split at hE
  all_goals simp_all

lemma updateRelTx_error {db : DB} {rid m1 t m2 iid : Nat} {failAt : Option Nat}
    {oldRel : RelRow} {e : Resp}
    (hfind : findById db.relationships rid = some oldRel)
    (hE : updateRelTx db rid m1 t m2 iid failAt = Except.error e) :
    e = Resp.serverError := by
  obtain ⟨hmem, hid⟩ := findById_mem hfind
  simp only [updateRelTx, hfind] at hE
  split at hE
  · simp_all
  · split at hE
    · simp_all
    · split at hE
      · rename_i oinv hO
        split at hE
        · rename_i hg
          split at hE
          · simp_all
          · exact updateRelTxTail_error
              (any_id_of_mem (mem_deleteMatching hmem (oldRel_not_matches hg)) hid) hE
        · exact updateRelTxTail_error (any_id_of_mem hmem hid) hE
      · exact updateRelTxTail_error (any_id_of_mem hmem hid) hE

/-- Claim C10: whenever the update handler's initial read finds a row
with the target identifier, the handler never answers 404, for any
injected failure: the old-inverse pattern delete could only remove the
target row in exactly the degenerate case the guard skips, so the
post-UPDATE NotFound branch cannot fire. -/
theorem C10_second_notfound_unreachable (db : DB) (rid m1 t m2 iid : Nat)
    (oldRel : RelRow) (failAt : Option Nat)
    (hfind : findById db.relationships rid = some oldRel) :
    (updateRelationship db rid m1 t m2 iid failAt).resp ≠ Resp.notFound := by
  rw [updateRelationship]
  split
  · simp
  · rcases hE : updateRelTx db rid m1 t m2 iid failAt with e | rels
    · have he := updateRelTx_error hfind hE
      simp [hE, he]
    · simp [hE]

/-- Witness for C10_second_notfound_unreachable on the row (1, 0, 2)
stored under id 5, updated to (2, 1, 1) with no injected failure. -/
theorem C10_second_notfound_unreachable_witness :
    findById [⟨5, 1, 0, 2⟩] 5 = some ⟨5, 1, 0, 2⟩ ∧
    (updateRelationship ⟨[], [⟨0, some 1⟩], [⟨5, 1, 0, 2⟩]⟩ 5 2 1 1 7 none).resp ≠
      Resp.notFound :=
  ⟨by decide,
    C10_second_notfound_unreachable ⟨[], [⟨0, some 1⟩], [⟨5, 1, 0, 2⟩]⟩ 5 2 1 1 7
      ⟨5, 1, 0, 2⟩ none (by decide)⟩

/-- Claim C6: deleting an existing relationship (A, TypeX, B) whose type
declares inverse InvX, outside the degenerate self-loop case, commits the
table with the primary row removed and every row matching (B, InvX, A)
removed, answering 200 — also when no such inverse row existed (the
pattern delete then removes nothing and the operation still succeeds);
afterwards no row matching (B, InvX, A) remains. -/
theorem C6_delete_symmetry (db : DB) (rid : Nat) (rel : RelRow) (inv : Nat)
    (hfind : findById db.relationships rid = some rel)
    (hinv : lookupInverse db.relationship_types rel.relationship_type_id = some inv)
    (hnd : ¬(inv = rel.relationship_type_id ∧ rel.member_id_1 = rel.member_id_2)) :
    deleteRelationship db rid none =
      ⟨Resp.ok,
        { db with relationships :=
            (deleteMatching (deleteById db.relationships rid) rel.member_id_2 inv
              rel.member_id_1) },
        true, true⟩ ∧
    existsRel (deleteRelationship db rid none).db.relationships
      rel.member_id_2 inv rel.member_id_1 = false := by
  have h1 : deleteRelTx db rid none =
      Except.ok (deleteMatching (deleteById db.relationships rid) rel.member_id_2 inv
        rel.member_id_1) := by
    simp [deleteRelTx, hfind, hinv, hnd]
  constructor
  · rw [deleteRelationship]
    simp [h1]
  · rw [deleteRelationship]
    simp [h1, existsRel_deleteMatching]

/-- Witness for C6_delete_symmetry: deleting row 5 = (1, 0, 2), type 0
having inverse 1, also removes the inverse row 6 = (2, 1, 1). -/
theorem C6_delete_symmetry_witness :
    findById [⟨5, 1, 0, 2⟩, ⟨6, 2, 1, 1⟩] 5 = some ⟨5, 1, 0, 2⟩ ∧
    lookupInverse [⟨0, some 1⟩] 0 = some 1 ∧
    deleteRelationship ⟨[], [⟨0, some 1⟩], [⟨5, 1, 0, 2⟩, ⟨6, 2, 1, 1⟩]⟩ 5 none =
      ⟨Resp.ok, ⟨[], [⟨0, some 1⟩], []⟩, true, true⟩ := by
  refine ⟨by decide, by decide, ?_⟩
  have h := (C6_delete_symmetry ⟨[], [⟨0, some 1⟩], [⟨5, 1, 0, 2⟩, ⟨6, 2, 1, 1⟩]⟩ 5
    ⟨5, 1, 0, 2⟩ 1 (by decide) (by decide) (by decide)).1
  rw [h]
  decide

lemma deleteRelTx_none_cases (db : DB) (rid : Nat) :
    (deleteRelTx db rid none = Except.error Resp.notFound ∧
      findById db.relationships rid = none) ∨
    (∃ rels, deleteRelTx db rid none = Except.ok rels ∧ findById rels rid = none) := by
  cases hf : findById db.relationships rid with
  | none =>
    left
    exact ⟨by simp [deleteRelTx, hf], rfl⟩
  | some rel =>
    right
    cases hL : lookupInverse db.relationship_types rel.relationship_type_id with
    | none =>
      exact ⟨deleteById db.relationships rid, by simp [deleteRelTx, hf, hL],
        findById_deleteById _ _⟩
    | some inv =>
      by_cases hnd : inv = rel.relationship_type_id ∧ rel.member_id_1 = rel.member_id_2
      · exact ⟨deleteById db.relationships rid, by simp [deleteRelTx, hf, hL, hnd],
          findById_deleteById _ _⟩
      · exact ⟨deleteMatching (deleteById db.relationships rid) rel.member_id_2 inv
            rel.member_id_1,
          by simp [deleteRelTx, hf, hL, hnd],
          findById_deleteMatching_none _ _ _ (findById_deleteById _ _)⟩

/-- Claim C7: an update or delete whose identifier matches no stored row
answers 404 after rollback, leaving the database exactly as it was; and
after any failure-free delete the deleted identifier matches no row, so
deleting the same relationship twice makes the second call report 404
with no side effect. -/
theorem C7_notfound_rollback (db : DB) (rid m1 t m2 iid : Nat)
    (hfind : findById db.relationships rid = none) :
    updateRelationship db rid m1 t m2 iid none = ⟨Resp.notFound, db, true, true⟩ ∧
    deleteRelationship db rid none = ⟨Resp.notFound, db, true, true⟩ ∧
    (∀ (db2 : DB) (rid2 : Nat),
      findById ((deleteRelationship db2 rid2 none).db).relationships rid2 = none) := by
  have hu : updateRelTx db rid m1 t m2 iid none = Except.error Resp.notFound := by
    simp [updateRelTx, hfind]
  have hd : deleteRelTx db rid none = Except.error Resp.notFound := by
    simp [deleteRelTx, hfind]
  refine ⟨by simp [updateRelationship, hu], by simp [deleteRelationship, hd], ?_⟩
  intro db2 rid2
  rcases deleteRelTx_none_cases db2 rid2 with ⟨hE, hf⟩ | ⟨rels, hE, hf⟩
  · simp [deleteRelationship, hE, hf]
  · simp [deleteRelationship, hE, hf]

/-- Witness for C7_notfound_rollback: id 5 is absent from a database with
one unrelated row, so update and delete both answer 404 unchanged. -/
theorem C7_notfound_rollback_witness :
    findById [⟨6, 2, 1, 1⟩] 5 = none ∧
    updateRelationship ⟨[], [], [⟨6, 2, 1, 1⟩]⟩ 5 1 0 2 7 none =
      ⟨Resp.notFound, ⟨[], [], [⟨6, 2, 1, 1⟩]⟩, true, true⟩ ∧
    deleteRelationship ⟨[], [], [⟨6, 2, 1, 1⟩]⟩ 5 none =
      ⟨Resp.notFound, ⟨[], [], [⟨6, 2, 1, 1⟩]⟩, true, true⟩ :=
  ⟨by decide,
    (C7_notfound_rollback ⟨[], [], [⟨6, 2, 1, 1⟩]⟩ 5 1 0 2 7 (by decide)).1,
    (C7_notfound_rollback ⟨[], [], [⟨6, 2, 1, 1⟩]⟩ 5 1 0 2 7 (by decide)).2.1⟩

end FambulTik
